import Mathlib

/-
Verification of the agentic tool-use execution loop of the Live2D-AI-Agent
repository (files src/backend/ai_models/agent.py, src/backend/ai_models/llm_manager.py
and src/backend/config.py), via a shallow embedding in Lean 4.

Python strings are modelled as Lean strings (lists of characters); Python
dicts coming from JSON are modelled as association lists in parse order;
a raised Python exception is modelled as Except.error carrying the message.
All definitions are executable (fuel-based where the Python control flow is
a while/scan loop), so concrete runs reduce by rfl / decide.
-/

namespace Live2DAgent

/-! ## Character and string utilities (models of Python primitives) -/

/-- Opening brace character, by code point. -/
def lbrace : Char := Char.ofNat 123

/-- Closing brace character, by code point. -/
def rbrace : Char := Char.ofNat 125

/-- Double-quote character, by code point. -/
def dquote : Char := Char.ofNat 34

/-- Backslash character, by code point. -/
def bslash : Char := Char.ofNat 92

/-- Decides whether `pat` occurs as a contiguous substring of the character
list, the model of the Python `in` test on strings. -/
def listContainsSub (pat : List Char) : List Char → Bool
  | [] => pat.isEmpty
  | c :: t => pat.isPrefixOf (c :: t) || listContainsSub pat t

/-- Substring test on strings: `strContainsSub hay pat` models Python
`pat in hay`. -/
def strContainsSub (hay pat : String) : Bool :=
  listContainsSub pat.data hay.data

/-- ASCII lower-casing, the model of Python `str.lower` (the inputs of the
claims are ASCII, where the two agree). -/
def pyLower (s : String) : String :=
  String.mk (s.data.map Char.toLower)

/-- Whitespace characters stripped by Python `str.strip` (space, tab, line
feed, carriage return, vertical tab, form feed). -/
def pyWs (c : Char) : Bool :=
  [32, 9, 10, 13, 11, 12].contains c.toNat

/-- Model of Python `str.strip`: drop leading and trailing whitespace. -/
def pyStrip (s : List Char) : List Char :=
  (((s.dropWhile pyWs).reverse).dropWhile pyWs).reverse

/-- One fuelled step list of Python `str.replace(old, "")`: removes the
non-overlapping occurrences of `old`, scanning left to right.  The fuel is
an upper bound on the number of scan steps; `pyReplaceAll` supplies a
sufficient amount. -/
def pyReplaceAllF (old : List Char) : Nat → List Char → List Char
  | 0, s => s
  | _ + 1, [] => []
  | fuel + 1, c :: t =>
      if old.isPrefixOf (c :: t) && !old.isEmpty then
        pyReplaceAllF old fuel ((c :: t).drop old.length)
      else
        c :: pyReplaceAllF old fuel t

/-- Model of Python `s.replace(old, "")` (for non-empty `old`, the only way
the code uses it). -/
def pyReplaceAll (old s : List Char) : List Char :=
  pyReplaceAllF old s.length s

/-- Joining a list of strings with a separator, the model of Python
`sep.join(parts)`. -/
def joinSep (sep : String) : List String → String
  | [] => ""
  | [x] => x
  | x :: y :: xs => x ++ sep ++ joinSep sep (y :: xs)

/-! ## JSON values and a strict parser (model of `json.loads`)

JSON numbers are kept as their source lexeme: the code never computes with
them, it only parses, stores and re-renders values, so the lexeme is a
faithful representation that avoids modelling IEEE floats. -/

/-- A decoded JSON value.  Objects are association lists in parse order. -/
inductive JVal where
  | jnull : JVal
  | jbool : Bool → JVal
  | jnum : String → JVal
  | jstr : String → JVal
  | jarr : List JVal → JVal
  | jobj : List (String × JVal) → JVal

/-- JSON inter-token whitespace accepted by `json.loads` (space, tab, line
feed, carriage return). -/
def jWs (c : Char) : Bool :=
  [32, 9, 10, 13].contains c.toNat

/-- Drops JSON whitespace. -/
def skipWs (cs : List Char) : List Char := cs.dropWhile jWs

/-- The table of two-character JSON string escapes: the character after the
backslash paired with the character it denotes (quote, backslash, solidus,
backspace, form feed, line feed, carriage return, tab). -/
def jEscTable : List (Char × Char) :=
  [(dquote, dquote), (bslash, bslash), ('/', '/'), ('b', '\x08'),
   ('f', '\x0c'), ('n', '\n'), ('r', '\x0d'), ('t', '\x09')]

/-- Decodes one JSON string escape character (the character after a
backslash, other than `u`). -/
def jEsc (c : Char) : Option Char :=
  (jEscTable.find? (fun kv => kv.1 == c)).map (fun kv => kv.2)

/-- Value of a hexadecimal digit, by code point arithmetic. -/
def hexVal (c : Char) : Option Nat :=
  let n := c.toNat
  if 48 ≤ n ∧ n ≤ 57 then some (n - 48)
  else if 97 ≤ n ∧ n ≤ 102 then some (n - 87)
  else if 65 ≤ n ∧ n ≤ 70 then some (n - 55)
  else none

/-- Parses the body of a JSON string after the opening quote, returning the
decoded characters and the remaining input after the closing quote.  Strict
mode: unescaped control characters are rejected, as are invalid escapes. -/
def parseJStrBody : List Char → Option (List Char × List Char)
  | [] => none
  | c :: rest =>
      if c == dquote then some ([], rest)
      else if c == bslash then
        match rest with
        | [] => none
        | e :: rest' =>
            if e == 'u' then
              match rest' with
              | a :: b :: c2 :: d :: rest'' =>
                  match hexVal a, hexVal b, hexVal c2, hexVal d with
                  | some va, some vb, some vc, some vd =>
                      match parseJStrBody rest'' with
                      | some (cs, r) =>
                          some (Char.ofNat (((va * 16 + vb) * 16 + vc) * 16 + vd) :: cs, r)
                      | none => none
                  | _, _, _, _ => none
              | _ => none
            else
              match jEsc e with
              | some ch =>
                  match parseJStrBody rest' with
                  | some (cs, r) => some (ch :: cs, r)
                  | none => none
              | none => none
      else if c.toNat < 32 then none
      else
        match parseJStrBody rest with
        | some (cs, r) => some (c :: cs, r)
        | none => none

/-- Parses a JSON number lexeme (sign, integer part with no leading zero,
optional fraction, optional exponent), returning the lexeme and the rest. -/
def parseJNum (cs : List Char) : Option (String × List Char) :=
  let (sign, cs1) :=
    match cs with
    | c :: t => if c == '-' then (['-'], t) else (([] : List Char), cs)
    | [] => ([], cs)
  let intPart := cs1.takeWhile Char.isDigit
  let rest1 := cs1.dropWhile Char.isDigit
  if intPart.isEmpty then none
  else if intPart.length > 1 && intPart.headD '0' == '0' then none
  else
    let (fracPart, rest2) :=
      match rest1 with
      | c :: t =>
          if c == '.' then
            let ds := t.takeWhile Char.isDigit
            if ds.isEmpty then ([], rest1) else ('.' :: ds, t.dropWhile Char.isDigit)
          else ([], rest1)
      | [] => ([], rest1)
    if fracPart.isEmpty && !(match rest1 with | c :: _ => !(c == '.') | [] => true) then none
    else
      let (expPart, rest3) :=
        match rest2 with
        | c :: t =>
            if c == 'e' || c == 'E' then
              let (es, t2) :=
                match t with
                | c2 :: t2 => if c2 == '+' || c2 == '-' then ([c, c2], t2) else ([c], t)
                | [] => ([c], t)
              let ds := t2.takeWhile Char.isDigit
              if ds.isEmpty then (([] : List Char), rest2)
              else (es ++ ds, t2.dropWhile Char.isDigit)
            else ([], rest2)
        | [] => ([], rest2)
      some (String.mk (sign ++ intPart ++ fracPart ++ expPart), rest3)

/-- Mode of the fuelled JSON parser: a single value, the element list of an
array, or the member list of an object. -/
inductive JMode where
  | value : JMode
  | elems : JMode
  | members : JMode

/-- Result of the fuelled JSON parser, matching the mode. -/
inductive JOut where
  | oval : JVal → JOut
  | oelems : List JVal → JOut
  | omembers : List (String × JVal) → JOut

/-- Fuelled strict JSON parser (model of the `json.loads` grammar).  The fuel
is an upper bound on recursion steps; `parseJson` supplies a sufficient
amount. -/
def parseJ : Nat → JMode → List Char → Option (JOut × List Char)
  | 0, _, _ => none
  | fuel + 1, JMode.value, cs =>
      let cs := skipWs cs
      match cs with
      | [] => none
      | c :: rest =>
          if c == dquote then
            match parseJStrBody rest with
            | some (s, r) => some (JOut.oval (JVal.jstr (String.mk s)), r)
            | none => none
          else if c == '[' then
            let rest' := skipWs rest
            match rest' with
            | c2 :: r2 =>
                if c2 == ']' then some (JOut.oval (JVal.jarr []), r2)
                else
                  match parseJ fuel JMode.elems rest' with
                  | some (JOut.oelems xs, r) => some (JOut.oval (JVal.jarr xs), r)
                  | _ => none
            | [] => none
          else if c == lbrace then
            let rest' := skipWs rest
            match rest' with
            | c2 :: r2 =>
                if c2 == rbrace then some (JOut.oval (JVal.jobj []), r2)
                else
                  match parseJ fuel JMode.members rest' with
                  | some (JOut.omembers kvs, r) => some (JOut.oval (JVal.jobj kvs), r)
                  | _ => none
            | [] => none
          else if c == 'n' then
            match rest with
            | 'u' :: 'l' :: 'l' :: r => some (JOut.oval JVal.jnull, r)
            | _ => none
          else if c == 't' then
            match rest with
            | 'r' :: 'u' :: 'e' :: r => some (JOut.oval (JVal.jbool true), r)
            | _ => none
          else if c == 'f' then
            match rest with
            | 'a' :: 'l' :: 's' :: 'e' :: r => some (JOut.oval (JVal.jbool false), r)
            | _ => none
          else if c == '-' || c.isDigit then
            match parseJNum cs with
            | some (lex, r) => some (JOut.oval (JVal.jnum lex), r)
            | none => none
          else none
  | fuel + 1, JMode.elems, cs =>
      match parseJ fuel JMode.value cs with
      | some (JOut.oval v, r) =>
          let r' := skipWs r
          match r' with
          | c :: r2 =>
              if c == ']' then some (JOut.oelems [v], r2)
              else if c == ',' then
                match parseJ fuel JMode.elems r2 with
                | some (JOut.oelems xs, r3) => some (JOut.oelems (v :: xs), r3)
                | _ => none
              else none
          | [] => none
      | _ => none
  | fuel + 1, JMode.members, cs =>
      let cs := skipWs cs
      match cs with
      | c :: rest =>
          if c == dquote then
            match parseJStrBody rest with
            | some (k, r) =>
                let r' := skipWs r
                match r' with
                | c2 :: r2 =>
                    if c2 == ':' then
                      match parseJ fuel JMode.value r2 with
                      | some (JOut.oval v, r3) =>
                          let r4 := skipWs r3
                          match r4 with
                          | c3 :: r5 =>
                              if c3 == rbrace then
                                some (JOut.omembers [(String.mk k, v)], r5)
                              else if c3 == ',' then
                                match parseJ fuel JMode.members r5 with
                                | some (JOut.omembers kvs, r6) =>
                                    some (JOut.omembers ((String.mk k, v) :: kvs), r6)
                                | _ => none
                              else none
                          | [] => none
                      | _ => none
                    else none
                | [] => none
            | none => none
          else none
      | [] => none

/-- Strict JSON decoding of a whole character list, the model of
`json.loads`: one value, with only whitespace allowed around it. -/
def parseJsonChars (cs : List Char) : Option JVal :=
  match parseJ (cs.length + 2) JMode.value cs with
  | some (JOut.oval v, rest) => if (skipWs rest).isEmpty then some v else none
  | _ => none

/-- Strict JSON decoding of a string. -/
def parseJson (s : String) : Option JVal := parseJsonChars s.data

/-! ## Tool-call extraction (LLMManager.generate_with_tools, llm_manager.py 109-132)

The code finds every match of the Python regular expression consisting of an
opening brace, brace-free characters, the quoted word tool, brace-free
characters and a closing brace, using `re.findall` (leftmost, non-overlapping);
decodes each match with `json.loads`, keeping those that decode to a value
with a `tool` key; and then replaces every match (parsed or not) by the empty
string in the reply text, finally stripping it. -/

/-- The literal `"tool"` (with its quotes) that the regex requires inside a
match. -/
def quotedTool : List Char := [dquote, 't', 'o', 'o', 'l', dquote]

/-- Characters allowed inside a match: anything but the two braces. -/
def notBrace (c : Char) : Bool := !(c == lbrace) && !(c == rbrace)

/-- Fuelled scan computing the `re.findall` matches of the tool-call pattern:
a match starts at an opening brace, runs over brace-free characters that
contain the quoted word tool, and ends at the next closing brace.  The fuel
bounds the number of scan steps; `findToolMatches` supplies enough. -/
def findToolMatchesF : Nat → List Char → List (List Char)
  | 0, _ => []
  | _ + 1, [] => []
  | fuel + 1, c :: rest =>
      if c == lbrace then
        let seg := rest.takeWhile notBrace
        let rest' := rest.dropWhile notBrace
        match rest' with
        | c2 :: after =>
            if c2 == rbrace then
              if listContainsSub quotedTool seg then
                (lbrace :: (seg ++ [rbrace])) :: findToolMatchesF fuel after
              else
                findToolMatchesF fuel after
            else
              findToolMatchesF fuel rest'
        | [] => []
      else
        findToolMatchesF fuel rest

/-- The `re.findall` matches of the tool-call pattern in a character list. -/
def findToolMatches (s : List Char) : List (List Char) :=
  findToolMatchesF (s.length + 1) s

/-- Tests whether a decoded JSON value is an object with a `tool` key, the
model of `"tool" in tool_call` on the decoded dict. -/
def hasToolKey : JVal → Bool
  | JVal.jobj kvs => kvs.any (fun kv => kv.1 == "tool")
  | _ => false

/-- The accumulation loop over matches building `tool_calls`: each match is
decoded with `json.loads`; failures and values without a `tool` key are
silently skipped (`except: pass`). -/
def buildToolCalls : List (List Char) → List JVal → List JVal
  | [], acc => acc
  | m :: rest, acc =>
      match parseJsonChars m with
      | some v =>
          if hasToolKey v then buildToolCalls rest (acc ++ [v])
          else buildToolCalls rest acc
      | none => buildToolCalls rest acc

/-- Decoding of a single match into a kept tool call, used to characterize
`buildToolCalls`. -/
def decodeToolCall (m : List Char) : Option JVal :=
  match parseJsonChars m with
  | some v => if hasToolKey v then some v else none
  | none => none

/-- The removal loop over matches: each match is replaced by the empty string
in the reply text (`response_text.replace(match, "")`), in match order,
whether or not it decoded. -/
def remove_tool_calls : List (List Char) → List Char → List Char
  | [], s => s
  | m :: rest, s => remove_tool_calls rest (pyReplaceAll m s)

/-- The tool-call parsing stage of `LLMManager.generate_with_tools`
(llm_manager.py lines 109-132) applied to the raw generated reply text:
returns the extracted tool calls and the cleaned, stripped reply text. -/
def generate_with_tools_parse (response_text : String) : List JVal × String :=
  let ms := findToolMatches response_text.data
  let tool_calls := buildToolCalls ms []
  let cleaned := remove_tool_calls ms response_text.data
  (tool_calls, String.mk (pyStrip cleaned))

/-! ## The agent executor (AgentExecutor, agent.py)

The Text Generator (`self.llm.generate_with_tools`) is the external
collaborator: it is modelled as a function from the formatted conversation
prompt to either a generated response (text plus already-parsed tool calls)
or an error, `Except.error` standing for a raised exception.  The tool
registry maps tool names to handlers; a handler takes the keyword-argument
mapping and returns a string result or raises. -/

/-- Configured default `settings.max_agent_iterations` (config.py line 57). -/
def settings_max_agent_iterations : Int := 5

/-- A conversation message: a role tag and text content. -/
structure Message where
  role : String
  content : String
deriving DecidableEq

/-- The value returned by `generate_with_tools`: reply text and parsed tool
calls. -/
structure GenResponse where
  response : String
  tool_calls : List JVal

/-- The Text Generator collaborator: formatted prompt to response or raised
exception. -/
def LLM : Type := String → Except String GenResponse

/-- A registered tool: its description and its handler.  The handler models
the Python callable invoked as `tool_func(**parameters)`: it receives the
keyword-argument association list and returns a string result, or an error
standing for a raised exception. -/
structure ToolInfo where
  description : String
  func : List (String × JVal) → Except String String

/-- The tool registry `self.tools`, keyed by name. -/
def ToolRegistry : Type := List (String × ToolInfo)

/-- Registry lookup. -/
def lookupTool (tools : ToolRegistry) (n : String) : Option ToolInfo :=
  match tools.find? (fun kv => kv.1 == n) with
  | some kv => some kv.2
  | none => none

/-- Lookup in a JSON object association list; on duplicate keys the last
binding wins, as in a Python dict built by `json.loads`. -/
def objGet (kvs : List (String × JVal)) (k : String) : Option JVal :=
  kvs.foldl (fun acc kv => if kv.1 == k then some kv.2 else acc) acc₀
where acc₀ : Option JVal := none

/-- Model of `tool_call.get(key)` on a decoded tool call. -/
def jget (tc : JVal) (k : String) : Option JVal :=
  match tc with
  | JVal.jobj kvs => objGet kvs k
  | _ => none

/-- Model of Python `str()` applied to a decoded JSON value, as used when a
value is interpolated into a message.  The claims only exercise the string,
null and number cases; container rendering is an approximation of Python
repr noted here once. -/
def pyStrOfJVal : Nat → JVal → String
  | _, JVal.jnull => "None"
  | _, JVal.jbool b => if b then "True" else "False"
  | _, JVal.jnum lex => lex
  | _, JVal.jstr s => s
  | 0, _ => "..."
  | fuel + 1, JVal.jarr xs =>
      "[" ++ joinSep ", " (xs.map (pyStrOfJVal fuel)) ++ "]"
  | fuel + 1, JVal.jobj kvs =>
      String.mk [lbrace] ++
        joinSep ", " (kvs.map (fun kv => kv.1 ++ ": " ++ pyStrOfJVal fuel kv.2)) ++
        String.mk [rbrace]

/-- Model of Python `str()` on an optional value (`None` prints as None). -/
def pyStrOfOpt : Option JVal → String
  | none => "None"
  | some v => pyStrOfJVal 32 v

/-- Embedding of `AgentExecutor._execute_tool` (agent.py lines 217-238):
reads the tool name and parameters from the call, returns an unknown-tool
string when the name is not registered, invokes the handler otherwise, and
converts a handler exception into an execution-error string.  Invoking the
handler with a non-mapping `parameters` value models the `TypeError` raised
by `tool_func(**parameters)`, caught by the same except-clause. -/
def execute_tool (tools : ToolRegistry) (tool_call : JVal) : String :=
  let tool_name := jget tool_call "tool"
  let parameters := (jget tool_call "parameters").getD (JVal.jobj [])
  match tool_name with
  | some (JVal.jstr n) =>
      match lookupTool tools n with
      | some info =>
          (match parameters with
           | JVal.jobj kvs =>
               (match info.func kvs with
                | Except.ok r => r
                | Except.error e => "Error executing tool: " ++ e)
           | _ => "Error executing tool: parameters is not a mapping")
      | none => "Error: Unknown tool \x27" ++ n ++ "\x27"
  | t => "Error: Unknown tool \x27" ++ pyStrOfOpt t ++ "\x27"

/-- The `tool` message appended to the conversation for one executed call
(agent.py lines 153-156). -/
def toolMessage (tool_call : JVal) (tool_result : String) : Message :=
  ⟨"tool", "Tool \x27" ++ pyStrOfOpt (jget tool_call "tool") ++ "\x27 result: " ++ tool_result⟩

/-- One entry of the `results` list (agent.py lines 158-162). -/
structure ToolResultEntry where
  tool : Option JVal
  parameters : Option JVal
  result : String

/-- The for-loop over the tool calls of a round (agent.py lines 149-162):
executes each call in order, appending a `tool` message to the conversation
and an entry to the results list. -/
def process_tool_calls (tools : ToolRegistry) :
    List JVal → List Message → List ToolResultEntry →
    List Message × List ToolResultEntry
  | [], conv, res => (conv, res)
  | tc :: rest, conv, res =>
      let tool_result := execute_tool tools tc
      process_tool_calls tools rest
        (conv ++ [toolMessage tc tool_result])
        (res ++ [⟨jget tc "tool", jget tc "parameters", tool_result⟩])

/-- The fixed completion keywords (agent.py line 168). -/
def completion_keywords : List String := ["completed", "finished", "done", "accomplished"]

/-- The completion test (agent.py line 169): some keyword occurs in the
lower-cased reply text. -/
def has_completion_keyword (s : String) : Bool :=
  completion_keywords.any (fun keyword => strContainsSub (pyLower s) keyword)

/-- Embedding of `AgentExecutor._format_conversation` (agent.py lines
200-215) for one message: the role-prefixed rendering, or nothing for roles
the formatter skips (such as `error`). -/
def format_message (msg : Message) : Option String :=
  if msg.role = "user" then some ("User: " ++ msg.content)
  else if msg.role = "assistant" then some ("Assistant: " ++ msg.content)
  else if msg.role = "tool" then some ("Tool Result: " ++ msg.content)
  else if msg.role = "system" then some ("System: " ++ msg.content)
  else none

/-- Embedding of `AgentExecutor._format_conversation`: the rendered messages
joined by blank lines. -/
def format_conversation (conversation : List Message) : String :=
  joinSep "\n\n" (conversation.filterMap format_message)

/-- The mutable state of the `while` loop in `execute_task`. -/
structure LoopState where
  iterations : Nat
  task_completed : Bool
  conversation : List Message
  results : List ToolResultEntry

/-- Embedding of the `while` loop of `execute_task` (agent.py lines
123-178), fuelled: the loop runs while `iterations < max_iter` and the task
is not completed; each round calls the generator on the formatted
conversation, appends the assistant reply, executes the tool calls of the round,
marks the task completed when the round had no tool calls or the reply
contains a completion keyword, and on a generator exception appends an
`error` message and breaks.  `execute_task` supplies fuel `max_iter.toNat`,
which by the loop guard is never exhausted before the guard fails. -/
def exec_loop (llm : LLM) (tools : ToolRegistry) (max_iter : Int) :
    Nat → LoopState → LoopState
  | 0, st => st
  | fuel + 1, st =>
      if (st.iterations : Int) < max_iter ∧ st.task_completed = false then
        let iterations := st.iterations + 1
        match llm (format_conversation st.conversation) with
        | Except.error e =>
            ⟨iterations, st.task_completed, st.conversation ++ [⟨"error", e⟩], st.results⟩
        | Except.ok response =>
            let conv1 := st.conversation ++ [⟨"assistant", response.response⟩]
            let (conv2, res2) :=
              process_tool_calls tools response.tool_calls conv1 st.results
            let completed1 :=
              if response.tool_calls.isEmpty then true else st.task_completed
            let completed2 :=
              if has_completion_keyword response.response then true else completed1
            exec_loop llm tools max_iter fuel ⟨iterations, completed2, conv2, res2⟩
      else st

/-- Model of the Python expression `max_iterations or settings.max_agent_iterations`
(agent.py line 99): `None` and `0` are falsy and select the configured
default. -/
def pyOrInt : Option Int → Int → Int
  | none, d => d
  | some v, d => if v = 0 then d else v

/-- The conversation `execute_task` builds before the loop (agent.py lines
111-121): an optional leading system message carrying the serialized
context, then the user task.  The context is modelled by its `json.dumps`
serialization. -/
def initial_conversation (task : String) (context : Option String) : List Message :=
  (match context with
   | some ctx => [⟨"system", "Context: " ++ ctx⟩]
   | none => []) ++ [⟨"user", task⟩]

/-- One entry of `self.execution_history` (agent.py lines 181-189).  The
wall-clock `timestamp` field is not modelled. -/
structure ExecutionRecord where
  task : String
  iterations : Nat
  completed : Bool
  results : List ToolResultEntry
  conversation : List Message
  language : String

/-- The value returned by `execute_task` (agent.py lines 192-198). -/
structure ExecResult where
  completed : Bool
  response : String
  iterations : Nat
  tool_results : List ToolResultEntry
  conversation : List Message

/-- Embedding of `AgentExecutor.execute_task` (agent.py lines 80-198):
resolves the iteration budget, builds the initial conversation, runs the
round loop, appends one `ExecutionRecord` to the history, and returns the
structured result.  Returns the result together with the updated history. -/
def execute_task (llm : LLM) (tools : ToolRegistry)
    (history : List ExecutionRecord) (task : String) (context : Option String)
    (max_iterations : Option Int) (language : String) :
    ExecResult × List ExecutionRecord :=
  let max_iter := pyOrInt max_iterations settings_max_agent_iterations
  let final := exec_loop llm tools max_iter max_iter.toNat
    ⟨0, false, initial_conversation task context, []⟩
  let execution_record : ExecutionRecord :=
    ⟨task, final.iterations, final.task_completed, final.results,
     final.conversation, language⟩
  (⟨final.task_completed,
    (match final.conversation.getLast? with
     | some m => m.content
     | none => ""),
    final.iterations, final.results, final.conversation⟩,
   history ++ [execution_record])

/-! ## The calculator tool (AgentExecutor._calculator_tool, agent.py 247-271)

The code parses the input with `ast.parse(expr, mode='eval')` and then
evaluates the compiled expression with the plain Python `eval` — the table of
safe operators built just above it is never consulted.  The embedding
therefore models ordinary Python expression evaluation on the fragment of
the language the claims exercise: integer literals, quoted string literals,
identifiers, function calls, parentheses, `+ - * / **` and unary minus,
with the Python precedence.  Inputs outside this fragment are reported as
syntax errors by the model; the claims only evaluate inputs inside it.
Python floats (from true division or negative exponents) are approximated
by rationals; no claim input reaches them.  Exception message texts are
abbreviated. -/

/-- Single-quote character, by code point. -/
def squote : Char := Char.ofNat 39

/-- Tokens of the modelled Python expression fragment. -/
inductive PyTok where
  | tInt : String → PyTok
  | tStr : String → PyTok
  | tName : String → PyTok
  | tPlus : PyTok
  | tMinus : PyTok
  | tStar : PyTok
  | tSlash : PyTok
  | tDblStar : PyTok
  | tLParen : PyTok
  | tRParen : PyTok
  | tComma : PyTok
deriving DecidableEq

/-- Characters allowed in an identifier after its first character. -/
def isNameChar (c : Char) : Bool := c.isAlphanum || c == '_'

/-- Fuelled tokenizer for the modelled fragment.  Unsupported characters
make the whole tokenization fail, standing for a syntax error. -/
def tokenizeF : Nat → List Char → Option (List PyTok)
  | 0, _ => none
  | _ + 1, [] => some []
  | fuel + 1, c :: rest =>
      if c == ' ' || c == '\t' then tokenizeF fuel rest
      else if c.isDigit then
        let ds := (c :: rest).takeWhile Char.isDigit
        let rest' := (c :: rest).dropWhile Char.isDigit
        match rest' with
        | c2 :: _ =>
            if c2 == '.' || c2.isAlpha || c2 == '_' then none
            else
              match tokenizeF fuel rest' with
              | some ts => some (PyTok.tInt (String.mk ds) :: ts)
              | none => none
        | [] => some [PyTok.tInt (String.mk ds)]
      else if c.isAlpha || c == '_' then
        let ns := (c :: rest).takeWhile isNameChar
        let rest' := (c :: rest).dropWhile isNameChar
        match tokenizeF fuel rest' with
        | some ts => some (PyTok.tName (String.mk ns) :: ts)
        | none => none
      else if c == squote || c == dquote then
        let body := rest.takeWhile (fun c2 => !(c2 == c) && !(c2 == bslash))
        let rest' := rest.dropWhile (fun c2 => !(c2 == c) && !(c2 == bslash))
        match rest' with
        | c2 :: rest'' =>
            if c2 == c then
              match tokenizeF fuel rest'' with
              | some ts => some (PyTok.tStr (String.mk body) :: ts)
              | none => none
            else none
        | [] => none
      else if c == '*' then
        match rest with
        | c2 :: rest' =>
            if c2 == '*' then
              match tokenizeF fuel rest' with
              | some ts => some (PyTok.tDblStar :: ts)
              | none => none
            else
              match tokenizeF fuel rest with
              | some ts => some (PyTok.tStar :: ts)
              | none => none
        | [] => some [PyTok.tStar]
      else
        let tok :=
          if c == '+' then some PyTok.tPlus
          else if c == '-' then some PyTok.tMinus
          else if c == '/' then some PyTok.tSlash
          else if c == '(' then some PyTok.tLParen
          else if c == ')' then some PyTok.tRParen
          else if c == ',' then some PyTok.tComma
          else none
        match tok with
        | some t =>
            match tokenizeF fuel rest with
            | some ts => some (t :: ts)
            | none => none
        | none => none

/-- Tokenizes the whole input. -/
def tokenize (s : String) : Option (List PyTok) :=
  tokenizeF (s.data.length + 1) s.data

/-- Binary operators of the modelled fragment (the `ast` node kinds listed by the dead operator table of the calculator). -/
inductive PyBinOp where
  | add : PyBinOp
  | sub : PyBinOp
  | mult : PyBinOp
  | div : PyBinOp
  | pow : PyBinOp
deriving DecidableEq

/-- Abstract syntax of the modelled Python expression fragment. -/
inductive PyExpr where
  | num : Int → PyExpr
  | strlit : String → PyExpr
  | name : String → PyExpr
  | binop : PyBinOp → PyExpr → PyExpr → PyExpr
  | usub : PyExpr → PyExpr
  | call : PyExpr → List PyExpr → PyExpr

/-- Numeric value of a digit run. -/
def natOfDigits (ds : List Char) : Nat :=
  ds.foldl (fun acc c => acc * 10 + (c.toNat - 48)) 0

/-- Parsing modes of the fuelled precedence-climbing expression grammar:
binary expression at a minimum precedence, continuation of one with an
accumulated left operand, unary expression, primary (atom plus call
suffixes, with the accumulated callee), atom, and call argument list. -/
inductive CMode where
  | bin : Nat → CMode
  | binRest : Nat → PyExpr → CMode
  | unary : CMode
  | primary : CMode
  | postfixRest : PyExpr → CMode
  | atom : CMode
  | args : CMode

/-- Result of the expression grammar, matching the mode. -/
inductive COut where
  | oexpr : PyExpr → COut
  | oargs : List PyExpr → COut

/-- Precedence of a binary token: addition group 1, multiplication group 2
(exponentiation and unary minus are handled in `CMode.unary`, giving
the Python precedence, with right-associative `**` binding tighter than unary
minus on its left). -/
def tokPrec : PyTok → Option (Nat × PyBinOp)
  | PyTok.tPlus => some (1, PyBinOp.add)
  | PyTok.tMinus => some (1, PyBinOp.sub)
  | PyTok.tStar => some (2, PyBinOp.mult)
  | PyTok.tSlash => some (2, PyBinOp.div)
  | _ => none

/-- Fuelled parser for the modelled expression fragment (the corresponding
subset of `ast.parse(expr, mode='eval')`). -/
def parseC : Nat → CMode → List PyTok → Option (COut × List PyTok)
  | 0, _, _ => none
  | fuel + 1, CMode.bin minPrec, ts =>
      match parseC fuel CMode.unary ts with
      | some (COut.oexpr lhs, ts') => parseC fuel (CMode.binRest minPrec lhs) ts'
      | _ => none
  | fuel + 1, CMode.binRest minPrec lhs, ts =>
      match ts with
      | t :: rest =>
          (match tokPrec t with
           | some (prec, op) =>
               if minPrec ≤ prec then
                 match parseC fuel (CMode.bin (prec + 1)) rest with
                 | some (COut.oexpr rhs, ts') =>
                     parseC fuel (CMode.binRest minPrec (PyExpr.binop op lhs rhs)) ts'
                 | _ => none
               else some (COut.oexpr lhs, ts)
           | none => some (COut.oexpr lhs, ts))
      | [] => some (COut.oexpr lhs, ts)
  | fuel + 1, CMode.unary, ts =>
      match ts with
      | PyTok.tMinus :: rest =>
          (match parseC fuel CMode.unary rest with
           | some (COut.oexpr e, ts') => some (COut.oexpr (PyExpr.usub e), ts')
           | _ => none)
      | _ =>
          match parseC fuel CMode.primary ts with
          | some (COut.oexpr p, ts') =>
              (match ts' with
               | PyTok.tDblStar :: rest' =>
                   (match parseC fuel CMode.unary rest' with
                    | some (COut.oexpr rhs, ts'') =>
                        some (COut.oexpr (PyExpr.binop PyBinOp.pow p rhs), ts'')
                    | _ => none)
               | _ => some (COut.oexpr p, ts'))
          | _ => none
  | fuel + 1, CMode.primary, ts =>
      match parseC fuel CMode.atom ts with
      | some (COut.oexpr a, ts') => parseC fuel (CMode.postfixRest a) ts'
      | _ => none
  | fuel + 1, CMode.postfixRest a, ts =>
      match ts with
      | PyTok.tLParen :: rest =>
          (match parseC fuel CMode.args rest with
           | some (COut.oargs xs, ts') =>
               parseC fuel (CMode.postfixRest (PyExpr.call a xs)) ts'
           | _ => none)
      | _ => some (COut.oexpr a, ts)
  | fuel + 1, CMode.atom, ts =>
      match ts with
      | PyTok.tInt lex :: rest =>
          some (COut.oexpr (PyExpr.num (Int.ofNat (natOfDigits lex.data))), rest)
      | PyTok.tStr s :: rest => some (COut.oexpr (PyExpr.strlit s), rest)
      | PyTok.tName n :: rest => some (COut.oexpr (PyExpr.name n), rest)
      | PyTok.tLParen :: rest =>
          (match parseC fuel (CMode.bin 1) rest with
           | some (COut.oexpr e, PyTok.tRParen :: rest') => some (COut.oexpr e, rest')
           | _ => none)
      | _ => none
  | fuel + 1, CMode.args, ts =>
      match ts with
      | PyTok.tRParen :: rest => some (COut.oargs [], rest)
      | _ =>
          match parseC fuel (CMode.bin 1) ts with
          | some (COut.oexpr e, ts') =>
              (match ts' with
               | PyTok.tComma :: rest' =>
                   (match parseC fuel CMode.args rest' with
                    | some (COut.oargs xs, ts'') => some (COut.oargs (e :: xs), ts'')
                    | _ => none)
               | PyTok.tRParen :: rest' => some (COut.oargs [e], rest')
               | _ => none)
          | _ => none

/-- Runtime values of the modelled evaluation: Python ints, floats
(approximated by rationals), strings, and built-in function objects. -/
inductive PyVal where
  | vint : Int → PyVal
  | vfloat : Rat → PyVal
  | vstr : String → PyVal
  | vbuiltin : String → PyVal

/-- Numeric coercion to rational, when the value is numeric. -/
def pyToRat : PyVal → Option Rat
  | PyVal.vint n => some (n : Rat)
  | PyVal.vfloat q => some q
  | _ => none

/-- Python string repetition (`s * n`). -/
def strRepeat (s : String) : Nat → String
  | 0 => ""
  | n + 1 => s ++ strRepeat s n

/-- Application of a binary operator, the model of the corresponding Python
operator on the modelled values; `Except.error` stands for a raised
exception (TypeError, ZeroDivisionError), with abbreviated messages. -/
def pyApplyBin : PyBinOp → PyVal → PyVal → Except String PyVal
  | PyBinOp.add, PyVal.vint a, PyVal.vint b => Except.ok (PyVal.vint (a + b))
  | PyBinOp.add, PyVal.vstr a, PyVal.vstr b => Except.ok (PyVal.vstr (a ++ b))
  | PyBinOp.add, a, b =>
      (match pyToRat a, pyToRat b with
       | some x, some y => Except.ok (PyVal.vfloat (x + y))
       | _, _ => Except.error "unsupported operand type(s) for +")
  | PyBinOp.sub, PyVal.vint a, PyVal.vint b => Except.ok (PyVal.vint (a - b))
  | PyBinOp.sub, a, b =>
      (match pyToRat a, pyToRat b with
       | some x, some y => Except.ok (PyVal.vfloat (x - y))
       | _, _ => Except.error "unsupported operand type(s) for -")
  | PyBinOp.mult, PyVal.vint a, PyVal.vint b => Except.ok (PyVal.vint (a * b))
  | PyBinOp.mult, PyVal.vstr s, PyVal.vint n => Except.ok (PyVal.vstr (strRepeat s n.toNat))
  | PyBinOp.mult, PyVal.vint n, PyVal.vstr s => Except.ok (PyVal.vstr (strRepeat s n.toNat))
  | PyBinOp.mult, a, b =>
      (match pyToRat a, pyToRat b with
       | some x, some y => Except.ok (PyVal.vfloat (x * y))
       | _, _ => Except.error "unsupported operand type(s) for *")
  | PyBinOp.div, a, b =>
      (match pyToRat a, pyToRat b with
       | some x, some y =>
           if y = 0 then Except.error "division by zero"
           else Except.ok (PyVal.vfloat (x / y))
       | _, _ => Except.error "unsupported operand type(s) for /")
  | PyBinOp.pow, PyVal.vint a, PyVal.vint b =>
      if 0 ≤ b then Except.ok (PyVal.vint (a ^ b.toNat))
      else if a = 0 then Except.error "0 cannot be raised to a negative power"
      else Except.ok (PyVal.vfloat (((a : Rat)) ^ (b : Int)))
  | PyBinOp.pow, a, b =>
      (match pyToRat a, pyToRat b with
       | some x, some y =>
           if y.den = 1 then
             if x = 0 ∧ y.num < 0 then Except.error "0 cannot be raised to a negative power"
             else Except.ok (PyVal.vfloat (x ^ y.num))
           else Except.error "fractional exponent not modelled"
       | _, _ => Except.error "unsupported operand type(s) for **")

/-- Fuelled evaluator, the model of the plain Python `eval` of the compiled
expression (the route `_calculator_tool` actually takes; its table of safe
operators is dead code).  The visible names are the built-ins the modelled
inputs use (`len`, `abs`); any other identifier is a NameError. -/
def pyEvalF : Nat → PyExpr → Except String PyVal
  | 0, _ => Except.error "recursion limit"
  | _ + 1, PyExpr.num n => Except.ok (PyVal.vint n)
  | _ + 1, PyExpr.strlit s => Except.ok (PyVal.vstr s)
  | _ + 1, PyExpr.name n =>
      if n = "len" || n = "abs" then Except.ok (PyVal.vbuiltin n)
      else Except.error ("name \x27" ++ n ++ "\x27 is not defined")
  | fuel + 1, PyExpr.usub e =>
      (match pyEvalF fuel e with
       | Except.ok (PyVal.vint n) => Except.ok (PyVal.vint (-n))
       | Except.ok (PyVal.vfloat q) => Except.ok (PyVal.vfloat (-q))
       | Except.ok _ => Except.error "bad operand type for unary -"
       | Except.error e => Except.error e)
  | fuel + 1, PyExpr.binop op l r =>
      (match pyEvalF fuel l with
       | Except.ok lv =>
           (match pyEvalF fuel r with
            | Except.ok rv => pyApplyBin op lv rv
            | Except.error e => Except.error e)
       | Except.error e => Except.error e)
  | fuel + 1, PyExpr.call f args =>
      (match pyEvalF fuel f with
       | Except.ok (PyVal.vbuiltin "len") =>
           (match args with
            | [a] =>
                (match pyEvalF fuel a with
                 | Except.ok (PyVal.vstr s) => Except.ok (PyVal.vint (Int.ofNat s.length))
                 | Except.ok _ => Except.error "object has no len()"
                 | Except.error e => Except.error e)
            | _ => Except.error "len() takes exactly one argument")
       | Except.ok (PyVal.vbuiltin "abs") =>
           (match args with
            | [a] =>
                (match pyEvalF fuel a with
                 | Except.ok (PyVal.vint n) => Except.ok (PyVal.vint (Int.natAbs n))
                 | Except.ok (PyVal.vfloat q) => Except.ok (PyVal.vfloat (abs q))
                 | Except.ok _ => Except.error "bad operand type for abs()"
                 | Except.error e => Except.error e)
            | _ => Except.error "abs() takes exactly one argument")
       | Except.ok _ => Except.error "object is not callable"
       | Except.error e => Except.error e)

/-- Rendering of a result value under `str()`, as interpolated into the
reply of the calculator.  Floats print via their rational approximation. -/
def pyReprVal : PyVal → String
  | PyVal.vint n => toString n
  | PyVal.vfloat q => toString q.num ++ "/" ++ toString q.den
  | PyVal.vstr s => s
  | PyVal.vbuiltin n => "<built-in function " ++ n ++ ">"

/-- Embedding of `AgentExecutor._calculator_tool` (agent.py lines 247-271):
parse the input as a Python expression and evaluate it with plain `eval`;
any exception (syntax error included) is caught and reported as an
error-calculating string. -/
def calculator_tool (expression : String) : String :=
  match tokenize expression with
  | none => "Error calculating: invalid syntax"
  | some toks =>
      match parseC (8 * toks.length + 16) (CMode.bin 1) toks with
      | some (COut.oexpr e, []) =>
          (match pyEvalF (2 * toks.length + 8) e with
           | Except.ok v => "Result: " ++ pyReprVal v
           | Except.error msg => "Error calculating: " ++ msg)
      | _ => "Error calculating: invalid syntax"

/-! ## Helper functions and lemmas about the loop -/

/-- The `tool` messages a round appends for its tool calls, in call order. -/
def tool_messages (tools : ToolRegistry) (tcs : List JVal) : List Message :=
  tcs.map (fun tc => toolMessage tc (execute_tool tools tc))

/-- The result entries a round appends for its tool calls, in call order. -/
def tool_entries (tools : ToolRegistry) (tcs : List JVal) : List ToolResultEntry :=
  tcs.map (fun tc => ⟨jget tc "tool", jget tc "parameters", execute_tool tools tc⟩)

/-- The content of the last `assistant` message of a conversation. -/
def last_assistant_content (conv : List Message) : Option String :=
  ((conv.filter (fun m => m.role == "assistant")).getLast?).map Message.content

theorem process_tool_calls_eq (tools : ToolRegistry) :
    ∀ (tcs : List JVal) (conv : List Message) (res : List ToolResultEntry),
    process_tool_calls tools tcs conv res =
      (conv ++ tool_messages tools tcs, res ++ tool_entries tools tcs)
  | [], conv, res => by simp [process_tool_calls, tool_messages, tool_entries]
  | tc :: rest, conv, res => by
      rw [process_tool_calls, process_tool_calls_eq tools rest]
      simp [tool_messages, tool_entries]

theorem tool_messages_role (tools : ToolRegistry) (tcs : List JVal) :
    ∀ m ∈ tool_messages tools tcs, m.role = "tool" := by
  intro m hm
  simp only [tool_messages, List.mem_map] at hm
  obtain ⟨tc, _, rfl⟩ := hm
  rfl

theorem exec_loop_stop (llm : LLM) (tools : ToolRegistry) (mi : Int) :
    ∀ (fuel : Nat) (st : LoopState),
    ¬((st.iterations : Int) < mi ∧ st.task_completed = false) →
    exec_loop llm tools mi fuel st = st
  | 0, _, _ => rfl
  | _ + 1, st, h => by rw [exec_loop, if_neg h]

theorem exec_loop_of_completed (llm : LLM) (tools : ToolRegistry) (mi : Int)
    (fuel : Nat) (st : LoopState) (h : st.task_completed = true) :
    exec_loop llm tools mi fuel st = st := by
  apply exec_loop_stop
  intro hc
  rw [h] at hc
  exact absurd hc.2 (by simp)

theorem exec_loop_error_step (llm : LLM) (tools : ToolRegistry) (mi : Int)
    (fuel : Nat) (st : LoopState) (e : String)
    (h1 : (st.iterations : Int) < mi) (h2 : st.task_completed = false)
    (h3 : llm (format_conversation st.conversation) = Except.error e) :
    exec_loop llm tools mi (fuel + 1) st =
      ⟨st.iterations + 1, false, st.conversation ++ [⟨"error", e⟩], st.results⟩ := by
  rw [exec_loop, if_pos ⟨h1, h2⟩, h3, h2]

theorem exec_loop_ok_step (llm : LLM) (tools : ToolRegistry) (mi : Int)
    (fuel : Nat) (st : LoopState) (resp : GenResponse)
    (h1 : (st.iterations : Int) < mi) (h2 : st.task_completed = false)
    (h3 : llm (format_conversation st.conversation) = Except.ok resp) :
    exec_loop llm tools mi (fuel + 1) st =
      exec_loop llm tools mi fuel
        ⟨st.iterations + 1,
         (if has_completion_keyword resp.response then true
          else if resp.tool_calls.isEmpty then true else st.task_completed),
         st.conversation ++ (⟨"assistant", resp.response⟩ :: tool_messages tools resp.tool_calls),
         st.results ++ tool_entries tools resp.tool_calls⟩ := by
  rw [exec_loop, if_pos ⟨h1, h2⟩, h3]
  simp only [process_tool_calls_eq]
  simp [List.append_assoc]

theorem exec_loop_iterations_le (llm : LLM) (tools : ToolRegistry) (mi : Int) :
    ∀ (fuel : Nat) (st : LoopState),
    (exec_loop llm tools mi fuel st).iterations ≤ st.iterations + fuel
  | 0, st => by simp [exec_loop]
  | fuel + 1, st => by
      by_cases h : (st.iterations : Int) < mi ∧ st.task_completed = false
      · cases hllm : llm (format_conversation st.conversation) with
        | error e =>
            rw [exec_loop_error_step llm tools mi fuel st e h.1 h.2 hllm]
            dsimp only
            omega
        | ok resp =>
            rw [exec_loop_ok_step llm tools mi fuel st resp h.1 h.2 hllm]
            refine le_trans (exec_loop_iterations_le llm tools mi fuel _) ?_
            dsimp only
            omega
      · rw [exec_loop_stop llm tools mi (fuel + 1) st h]
        omega

theorem last_assistant_append (conv : List Message) (s : String) (msgs : List Message)
    (h : ∀ m ∈ msgs, m.role = "tool") :
    last_assistant_content (conv ++ (⟨"assistant", s⟩ :: msgs)) = some s := by
  unfold last_assistant_content
  rw [List.filter_append]
  have hmsgs : msgs.filter (fun m => m.role == "assistant") = [] := by
    rw [List.filter_eq_nil_iff]
    intro m hm
    rw [h m hm]
    simp
  rw [List.filter_cons_of_pos (by simp), hmsgs, List.getLast?_concat]
  rfl

theorem exec_loop_completed_source (llm : LLM) (tools : ToolRegistry) (mi : Int) :
    ∀ (fuel : Nat) (st : LoopState), st.task_completed = false →
    (exec_loop llm tools mi fuel st).task_completed = true →
    ∃ s, last_assistant_content (exec_loop llm tools mi fuel st).conversation = some s ∧
      (((exec_loop llm tools mi fuel st).conversation.getLast?).map Message.role =
         some "assistant" ∨
       has_completion_keyword s = true)
  | 0, st, hc, hdone => by
      simp only [exec_loop] at hdone
      rw [hc] at hdone
      exact absurd hdone (by simp)
  | fuel + 1, st, hc, hdone => by
      by_cases h : (st.iterations : Int) < mi ∧ st.task_completed = false
      · cases hllm : llm (format_conversation st.conversation) with
        | error e =>
            rw [exec_loop_error_step llm tools mi fuel st e h.1 h.2 hllm] at hdone ⊢
            exact absurd hdone (by simp)
        | ok resp =>
            rw [exec_loop_ok_step llm tools mi fuel st resp h.1 h.2 hllm] at hdone ⊢
            by_cases hkw : has_completion_keyword resp.response = true
            · have hcompl :
                  (if has_completion_keyword resp.response then true
                   else if resp.tool_calls.isEmpty then true else st.task_completed) = true := by
                simp [hkw]
              rw [hcompl] at hdone ⊢
              rw [exec_loop_of_completed llm tools mi fuel _ rfl] at hdone ⊢
              exact ⟨resp.response,
                last_assistant_append _ _ _ (tool_messages_role tools _), Or.inr hkw⟩
            · by_cases hemp : resp.tool_calls.isEmpty = true
              · have htc : resp.tool_calls = [] := by
                  simpa using hemp
                have hcompl :
                    (if has_completion_keyword resp.response then true
                     else if resp.tool_calls.isEmpty then true else st.task_completed) = true := by
                  simp [hemp]
                rw [hcompl] at hdone ⊢
                rw [exec_loop_of_completed llm tools mi fuel _ rfl] at hdone ⊢
                refine ⟨resp.response, ?_, Or.inl ?_⟩
                · exact last_assistant_append _ _ _ (tool_messages_role tools _)
                · rw [htc]
                  simp only [tool_messages, List.map_nil]
                  rw [show (⟨"assistant", resp.response⟩ : Message) :: ([] : List Message) =
                        [⟨"assistant", resp.response⟩] from rfl]
                  rw [List.getLast?_concat]
                  rfl
              · have hcompl :
                    (if has_completion_keyword resp.response then true
                     else if resp.tool_calls.isEmpty then true else st.task_completed) = false := by
                  rw [h.2]
                  simp [hkw, hemp]
                rw [hcompl] at hdone ⊢
                exact exec_loop_completed_source llm tools mi fuel _ rfl hdone
      · rw [exec_loop_stop llm tools mi (fuel + 1) st h] at hdone ⊢
        rw [hc] at hdone
        exact absurd hdone (by simp)

/-! ## Scripted collaborators used by concrete runs -/

/-- A generator that always replies with fixed text and no tool calls. -/
def const_ok_llm (s : String) : LLM := fun _ => Except.ok ⟨s, []⟩

/-- A generator that always raises. -/
def err_llm (e : String) : LLM := fun _ => Except.error e

/-- An echo tool: returns its single `msg` parameter unchanged; a missing
`msg` models the TypeError of calling the handler without it. -/
def echo_tool : ToolInfo :=
  ⟨"Echo a message", fun kvs =>
    match objGet kvs "msg" with
    | some (JVal.jstr s) => Except.ok s
    | _ => Except.error "echo() missing required argument: \x27msg\x27"⟩

/-- A parameterless clock tool. -/
def clock_tool : ToolInfo := ⟨"Get the current time", fun _ => Except.ok "now"⟩

/-- A parsed directive naming the never-registered tool frobnicate. -/
def frob_call : JVal := JVal.jobj [("tool", JVal.jstr "frobnicate")]

/-- The parsed echo directive with parameters msg = hi. -/
def echo_call : JVal :=
  JVal.jobj [("tool", JVal.jstr "echo"), ("parameters", JVal.jobj [("msg", JVal.jstr "hi")])]

/-- A registry holding only the echo tool. -/
def c9_tools : ToolRegistry := [("echo", echo_tool)]

/-- Scripted generator for the round trip: the first round (prompt is the
lone user message) emits exactly the echo directive; later rounds reply
without tool calls. -/
def c9_llm : LLM := fun p =>
  if p = "User: say hi" then Except.ok ⟨"Using echo.", [echo_call]⟩
  else Except.ok ⟨"All finished.", []⟩

/-- Scripted generator whose first round calls an unknown tool and whose
replies carry no completion keyword. -/
def c5_llm : LLM := fun p =>
  if p = "User: go" then Except.ok ⟨"Trying.", [frob_call]⟩
  else Except.ok ⟨"Nothing works.", []⟩

/-- Scripted generator whose reply contains a completion keyword together
with a tool call. -/
def c6_llm : LLM := fun _ => Except.ok ⟨"Step one DONE.", [frob_call]⟩

/-- Scripted generator whose reply contains a completion keyword and a tool
call, used for the completed-implies-source witness. -/
def c8_llm : LLM := fun _ => Except.ok ⟨"Task completed.", [frob_call]⟩

/-- A parsed directive for the clock tool with no parameters key. -/
def c10_call : JVal := JVal.jobj [("tool", JVal.jstr "clock")]

/-- A registry holding only the clock tool. -/
def c10_tools : ToolRegistry := [("clock", clock_tool)]

/-! ## Claims -/

/-- Claim C1, counterexample: with `max_iterations = 0` the override is
falsy in `max_iterations or settings.max_agent_iterations`, so the
configured default of 5 applies: with a generator that replies without
tool calls, the task runs one round, completes, and the generated reply
reaches the output — not zero rounds with `completed = false` and no
generator call as the claim states. -/
theorem c1_counterexample :
    ((execute_task (const_ok_llm "ok") [] [] "t" none (some 0) "en").1).iterations = 1 ∧
    ((execute_task (const_ok_llm "ok") [] [] "t" none (some 0) "en").1).completed = true ∧
    ((execute_task (const_ok_llm "ok") [] [] "t" none (some 0) "en").1).response = "ok" :=
  ⟨rfl, rfl, rfl⟩

/-- Claim C1 (amended): a negative `max_iterations` override yields zero
rounds — `completed = false`, `iterations = 0`, and the Text Generator is
never consulted (the result is the same for any two generators); an
override of `0`, however, is falsy in the Python expression
`max_iterations or settings.max_agent_iterations` and behaves exactly like
passing no override, running rounds up to the configured default. -/
theorem c1_amended (llm llm' : LLM) (tools : ToolRegistry)
    (hist : List ExecutionRecord) (task : String) (ctx : Option String)
    (lang : String) (m : Int) (hm : m < 0) :
    execute_task llm tools hist task ctx (some m) lang =
      execute_task llm' tools hist task ctx (some m) lang ∧
    ((execute_task llm tools hist task ctx (some m) lang).1).iterations = 0 ∧
    ((execute_task llm tools hist task ctx (some m) lang).1).completed = false ∧
    execute_task llm tools hist task ctx (some 0) lang =
      execute_task llm tools hist task ctx none lang := by
  have h0 : m ≠ 0 := by omega
  have hmi : pyOrInt (some m) settings_max_agent_iterations = m := by
    simp [pyOrInt, h0]
  have ht : m.toNat = 0 := Int.toNat_eq_zero.mpr (le_of_lt hm)
  refine ⟨?_, ?_, ?_, ?_⟩
  · simp [execute_task, hmi, ht, exec_loop]
  · simp [execute_task, hmi, ht, exec_loop]
  · simp [execute_task, hmi, ht, exec_loop]
  · simp [execute_task, pyOrInt]

/-- Witness for the amended C1 at the concrete override -1. -/
theorem c1_amended_witness :
    (-1 : Int) < 0 ∧
    (execute_task (const_ok_llm "ok") [] [] "t" none (some (-1)) "en" =
       execute_task (err_llm "x") [] [] "t" none (some (-1)) "en" ∧
     ((execute_task (const_ok_llm "ok") [] [] "t" none (some (-1)) "en").1).iterations = 0 ∧
     ((execute_task (const_ok_llm "ok") [] [] "t" none (some (-1)) "en").1).completed = false ∧
     execute_task (const_ok_llm "ok") [] [] "t" none (some 0) "en" =
       execute_task (const_ok_llm "ok") [] [] "t" none none "en") :=
  ⟨by decide,
   c1_amended (const_ok_llm "ok") (err_llm "x") [] [] "t" none "en" (-1) (by decide)⟩

/-- Claim C2: the calculator evaluates 2 + 2 * 3 to 8 with standard
precedence; but it does not fail safely on non-arithmetic input: the
evaluation of the call expression len applied to a string literal goes
through plain eval (the table of safe operators in the source is dead
code), executes the call and returns Result: 3 instead of the
error-describing string the claim requires. -/
theorem c2_calculator_eval :
    calculator_tool "2 + 2 * 3" = "Result: 8" ∧
    calculator_tool "len(\x27abc\x27)" = "Result: 3" :=
  ⟨rfl, rfl⟩

/-- Claim C3, counterexample: a reply whose fragment matches the extraction
pattern but fails strict JSON decoding yields no tool call, yet the
fragment is removed from the stored reply text instead of being preserved
verbatim as the claim asserts. -/
theorem c3_counterexample :
    (generate_with_tools_parse "see \x7b\"tool\": nope\x7d end").1 = [] ∧
    (generate_with_tools_parse "see \x7b\"tool\": nope\x7d end").2 = "see  end" ∧
    ¬((generate_with_tools_parse "see \x7b\"tool\": nope\x7d end").2 =
        "see \x7b\"tool\": nope\x7d end") :=
  ⟨rfl, rfl, by decide⟩

theorem buildToolCalls_eq : ∀ (ms : List (List Char)) (acc : List JVal),
    buildToolCalls ms acc = acc ++ ms.filterMap decodeToolCall
  | [], acc => by simp [buildToolCalls]
  | m :: rest, acc => by
      cases hp : parseJsonChars m with
      | none =>
          simp [buildToolCalls, hp, decodeToolCall, buildToolCalls_eq rest acc]
      | some v =>
          by_cases ht : hasToolKey v = true
          · simp [buildToolCalls, hp, decodeToolCall, ht,
              buildToolCalls_eq rest (acc ++ [v])]
          · simp [buildToolCalls, hp, decodeToolCall, ht, buildToolCalls_eq rest acc]

/-- Claim C3 (amended): for every generator reply, the extracted tool calls
are exactly the pattern matches that decode under strict JSON to an object
with a tool key — fragments failing either test are silently dropped and
the round does not fail — and the stored reply text is the original text
with every pattern match removed, parsed or not, then stripped. -/
theorem c3_amended (s : String) :
    (generate_with_tools_parse s).1 =
      (findToolMatches s.data).filterMap decodeToolCall ∧
    (generate_with_tools_parse s).2 =
      String.mk (pyStrip (remove_tool_calls (findToolMatches s.data) s.data)) := by
  constructor
  · simp [generate_with_tools_parse, buildToolCalls_eq]
  · rfl

/-- Claim C4: when a generator round raises, the loop appends an error
message and halts immediately with no further rounds, returning the
conversation and results accumulated so far with completed false; and
execute_task always appends exactly one ExecutionRecord mirroring the
returned result to the history, whatever the terminal state (the embedding
is a total function: no exception propagates to the caller). -/
theorem c4_generator_failure :
    (∀ (llm : LLM) (tools : ToolRegistry) (mi : Int) (fuel : Nat)
       (st : LoopState) (e : String),
       (st.iterations : Int) < mi → st.task_completed = false →
       llm (format_conversation st.conversation) = Except.error e →
       exec_loop llm tools mi (fuel + 1) st =
         ⟨st.iterations + 1, false, st.conversation ++ [⟨"error", e⟩], st.results⟩) ∧
    (∀ (llm : LLM) (tools : ToolRegistry) (hist : List ExecutionRecord)
       (task : String) (ctx : Option String) (mio : Option Int) (lang : String),
       (execute_task llm tools hist task ctx mio lang).2 =
         hist ++ [⟨task,
           ((execute_task llm tools hist task ctx mio lang).1).iterations,
           ((execute_task llm tools hist task ctx mio lang).1).completed,
           ((execute_task llm tools hist task ctx mio lang).1).tool_results,
           ((execute_task llm tools hist task ctx mio lang).1).conversation, lang⟩]) :=
  ⟨fun llm tools mi fuel st e h1 h2 h3 =>
     exec_loop_error_step llm tools mi fuel st e h1 h2 h3,
   fun _ _ _ _ _ _ _ => rfl⟩

/-- Witness for C4 at a concrete failing generator. -/
theorem c4_witness :
    ((0 : Nat) : Int) < 5 ∧
    exec_loop (err_llm "boom") [] 5 4 ⟨0, false, [⟨"user", "t"⟩], []⟩ =
      ⟨1, false, [⟨"user", "t"⟩, ⟨"error", "boom"⟩], []⟩ :=
  ⟨by decide,
   c4_generator_failure.1 (err_llm "boom") [] 5 4 ⟨0, false, [⟨"user", "t"⟩], []⟩
     "boom" (by decide) rfl rfl⟩

/-- Claim C5: a call naming an unregistered tool returns a string naming it
as unknown rather than raising; a handler failure is caught and returned as
a string prefixed as an execution error; and in both cases the round
finishes normally — the loop recursion proceeds to the next round with the
task not completed, instead of aborting. -/
theorem c5_tool_errors_absorbed :
    (∀ (tools : ToolRegistry) (tc : JVal) (n : String),
       jget tc "tool" = some (JVal.jstr n) → lookupTool tools n = none →
       execute_tool tools tc = "Error: Unknown tool \x27" ++ n ++ "\x27") ∧
    (∀ (tools : ToolRegistry) (tc : JVal) (n : String) (info : ToolInfo)
       (kvs : List (String × JVal)) (e : String),
       jget tc "tool" = some (JVal.jstr n) → lookupTool tools n = some info →
       (jget tc "parameters").getD (JVal.jobj []) = JVal.jobj kvs →
       info.func kvs = Except.error e →
       execute_tool tools tc = "Error executing tool: " ++ e) ∧
    (∀ (llm : LLM) (tools : ToolRegistry) (mi : Int) (fuel : Nat)
       (st : LoopState) (resp : GenResponse),
       (st.iterations : Int) < mi → st.task_completed = false →
       llm (format_conversation st.conversation) = Except.ok resp →
       resp.tool_calls.isEmpty = false →
       has_completion_keyword resp.response = false →
       exec_loop llm tools mi (fuel + 1) st =
         exec_loop llm tools mi fuel
           ⟨st.iterations + 1, false,
            st.conversation ++
              (⟨"assistant", resp.response⟩ :: tool_messages tools resp.tool_calls),
            st.results ++ tool_entries tools resp.tool_calls⟩) := by
  refine ⟨?_, ?_, ?_⟩
  · intro tools tc n h1 h2
    simp [execute_tool, h1, h2]
  · intro tools tc n info kvs e h1 h2 h3 h4
    simp [execute_tool, h1, h2, h3, h4]
  · intro llm tools mi fuel st resp h1 h2 h3 hne hkw
    rw [exec_loop_ok_step llm tools mi fuel st resp h1 h2 h3]
    simp [hkw, hne, h2]

/-- Witness for C5: a concrete unknown-tool invocation, a concrete failing
handler, and a concrete round that continues after an unknown-tool call. -/
theorem c5_witness :
    execute_tool [] frob_call = "Error: Unknown tool \x27frobnicate\x27" ∧
    execute_tool c9_tools
        (JVal.jobj [("tool", JVal.jstr "echo"), ("parameters", JVal.jobj [])]) =
      "Error executing tool: echo() missing required argument: \x27msg\x27" ∧
    exec_loop c5_llm c9_tools 5 4 ⟨0, false, [⟨"user", "go"⟩], []⟩ =
      exec_loop c5_llm c9_tools 5 3
        ⟨1, false,
         [⟨"user", "go"⟩] ++
           (⟨"assistant", "Trying."⟩ :: tool_messages c9_tools [frob_call]),
         [] ++ tool_entries c9_tools [frob_call]⟩ :=
  ⟨c5_tool_errors_absorbed.1 [] frob_call "frobnicate" rfl rfl,
   c5_tool_errors_absorbed.2.1 c9_tools
     (JVal.jobj [("tool", JVal.jstr "echo"), ("parameters", JVal.jobj [])])
     "echo" echo_tool [] "echo() missing required argument: \x27msg\x27" rfl rfl rfl rfl,
   c5_tool_errors_absorbed.2.2 c5_llm c9_tools 5 3 ⟨0, false, [⟨"user", "go"⟩], []⟩
     ⟨"Trying.", [frob_call]⟩ (by decide) rfl rfl rfl rfl⟩

/-- Claim C6: a round whose reply contains a completion keyword
(case-insensitive literal substring) ends the loop in the completed state
at the end of that round, even when tool calls were also present: the calls
are executed and their messages and result entries appear in the final
state. -/
theorem c6_keyword_completion (llm : LLM) (tools : ToolRegistry) (mi : Int)
    (fuel : Nat) (st : LoopState) (resp : GenResponse)
    (h1 : (st.iterations : Int) < mi) (h2 : st.task_completed = false)
    (h3 : llm (format_conversation st.conversation) = Except.ok resp)
    (hkw : has_completion_keyword resp.response = true) :
    exec_loop llm tools mi (fuel + 1) st =
      ⟨st.iterations + 1, true,
       st.conversation ++
         (⟨"assistant", resp.response⟩ :: tool_messages tools resp.tool_calls),
       st.results ++ tool_entries tools resp.tool_calls⟩ := by
  rw [exec_loop_ok_step llm tools mi fuel st resp h1 h2 h3]
  simp only [hkw, if_true]
  exact exec_loop_of_completed llm tools mi fuel _ rfl

/-- Witness for C6: a concrete round with both a keyword and a tool call. -/
theorem c6_witness :
    ((0 : Nat) : Int) < 5 ∧
    exec_loop c6_llm [] 5 4 ⟨0, false, [⟨"user", "go"⟩], []⟩ =
      ⟨1, true,
       [⟨"user", "go"⟩] ++
         (⟨"assistant", "Step one DONE."⟩ :: tool_messages [] [frob_call]),
       [] ++ tool_entries [] [frob_call]⟩ :=
  ⟨by decide,
   c6_keyword_completion c6_llm [] 5 3 ⟨0, false, [⟨"user", "go"⟩], []⟩
     ⟨"Step one DONE.", [frob_call]⟩ (by decide) rfl rfl rfl⟩

/-- Claim C7: with a positive effective iteration budget, a first generator
round that returns zero parsed tool calls and no completion keyword still
ends the task: the loop terminates in the completed state with exactly one
round executed. -/
theorem c7_no_tool_calls_completes (llm : LLM) (tools : ToolRegistry)
    (hist : List ExecutionRecord) (task : String) (ctx : Option String)
    (mio : Option Int) (lang : String) (resp : GenResponse)
    (hpos : 0 < pyOrInt mio settings_max_agent_iterations)
    (h3 : llm (format_conversation (initial_conversation task ctx)) = Except.ok resp)
    (hempty : resp.tool_calls = [])
    (hkw : has_completion_keyword resp.response = false) :
    ((execute_task llm tools hist task ctx mio lang).1).completed = true ∧
    ((execute_task llm tools hist task ctx mio lang).1).iterations = 1 := by
  obtain ⟨n, hn⟩ : ∃ n, (pyOrInt mio settings_max_agent_iterations).toNat = n + 1 :=
    ⟨(pyOrInt mio settings_max_agent_iterations).toNat - 1, by omega⟩
  have key : exec_loop llm tools (pyOrInt mio settings_max_agent_iterations)
      ((pyOrInt mio settings_max_agent_iterations).toNat)
      ⟨0, false, initial_conversation task ctx, []⟩ =
      ⟨1, true,
       initial_conversation task ctx ++
         (⟨"assistant", resp.response⟩ :: tool_messages tools resp.tool_calls),
       [] ++ tool_entries tools resp.tool_calls⟩ := by
    rw [hn]
    rw [exec_loop_ok_step llm tools (pyOrInt mio settings_max_agent_iterations) n
      ⟨0, false, initial_conversation task ctx, []⟩ resp (by simpa using hpos) rfl h3]
    simp only [hempty, hkw]
    simp only [List.isEmpty_nil, if_true, if_false]
    exact exec_loop_of_completed llm tools (pyOrInt mio settings_max_agent_iterations) n _ rfl
  constructor
  · simp only [execute_task]
    rw [key]
  · simp only [execute_task]
    rw [key]

/-- Witness for C7 at a concrete generator with no tool calls. -/
theorem c7_witness :
    0 < pyOrInt none settings_max_agent_iterations ∧
    (((execute_task (const_ok_llm "ok") [] [] "t" none none "en").1).completed = true ∧
     ((execute_task (const_ok_llm "ok") [] [] "t" none none "en").1).iterations = 1) :=
  ⟨by decide,
   c7_no_tool_calls_completes (const_ok_llm "ok") [] [] "t" none none "en"
     ⟨"ok", []⟩ (by decide) rfl rfl rfl⟩

/-- Claim C8: the iteration count of the result (and hence of the recorded
ExecutionRecord, which mirrors it) never exceeds the effective maximum
number of iterations — the truthy override, else the configured default —
and completed = true implies that the completing round either had no tool
calls (the conversation then ends with the assistant message) or the final
assistant message contains a completion keyword. -/
theorem c8_invariants (llm : LLM) (tools : ToolRegistry)
    (hist : List ExecutionRecord) (task : String) (ctx : Option String)
    (mio : Option Int) (lang : String) :
    ((execute_task llm tools hist task ctx mio lang).1).iterations ≤
      (pyOrInt mio settings_max_agent_iterations).toNat ∧
    (((execute_task llm tools hist task ctx mio lang).1).completed = true →
      ∃ s, last_assistant_content
             ((execute_task llm tools hist task ctx mio lang).1).conversation = some s ∧
        ((((execute_task llm tools hist task ctx mio lang).1).conversation.getLast?).map
            Message.role = some "assistant" ∨
         has_completion_keyword s = true)) := by
  constructor
  · have h := exec_loop_iterations_le llm tools (pyOrInt mio settings_max_agent_iterations)
      ((pyOrInt mio settings_max_agent_iterations).toNat)
      ⟨0, false, initial_conversation task ctx, []⟩
    simpa [execute_task] using h
  · intro hdone
    exact exec_loop_completed_source llm tools (pyOrInt mio settings_max_agent_iterations)
      ((pyOrInt mio settings_max_agent_iterations).toNat)
      ⟨0, false, initial_conversation task ctx, []⟩ rfl hdone

/-- Witness for C8 at a concrete run that completes via a keyword while
also executing a tool call. -/
theorem c8_witness :
    ((execute_task c8_llm [] [] "t" none none "en").1).iterations ≤
      (pyOrInt none settings_max_agent_iterations).toNat ∧
    ∃ s, last_assistant_content
           ((execute_task c8_llm [] [] "t" none none "en").1).conversation = some s ∧
      ((((execute_task c8_llm [] [] "t" none none "en").1).conversation.getLast?).map
          Message.role = some "assistant" ∨
       has_completion_keyword s = true) :=
  ⟨(c8_invariants c8_llm [] [] "t" none none "en").1,
   (c8_invariants c8_llm [] [] "t" none none "en").2 rfl⟩

/-- Claim C9: with an echo tool registered and a scripted generator whose
first round emits exactly one echo directive with msg = hi, the execution
produces a conversation message of role tool whose content contains hi, and
a tool_results entry recording tool echo, parameters msg = hi and result
hi. -/
theorem c9_echo_roundtrip :
    (∃ m, m ∈ ((execute_task c9_llm c9_tools [] "say hi" none none "en").1).conversation ∧
       m.role = "tool" ∧ strContainsSub m.content "hi" = true) ∧
    ((execute_task c9_llm c9_tools [] "say hi" none none "en").1).tool_results =
      [⟨some (JVal.jstr "echo"), some (JVal.jobj [("msg", JVal.jstr "hi")]), "hi"⟩] := by
  constructor
  · refine ⟨⟨"tool", "Tool \x27echo\x27 result: hi"⟩, ?_, rfl, rfl⟩
    have hconv : ((execute_task c9_llm c9_tools [] "say hi" none none "en").1).conversation =
        [⟨"user", "say hi"⟩, ⟨"assistant", "Using echo."⟩,
         ⟨"tool", "Tool \x27echo\x27 result: hi"⟩, ⟨"assistant", "All finished."⟩] := rfl
    rw [hconv]
    exact List.Mem.tail _ (List.Mem.tail _ (List.Mem.head _))
  · rfl

/-- Claim C10: a parsed call whose mapping lacks a parameters key invokes
the registered handler with the empty keyword mapping rather than failing,
and the corresponding result entry records the parameters as absent (None)
while carrying the handler result. -/
theorem c10_missing_parameters (tools : ToolRegistry) (kvs : List (String × JVal))
    (n : String) (info : ToolInfo) (r : String)
    (conv : List Message) (res : List ToolResultEntry)
    (h1 : objGet kvs "tool" = some (JVal.jstr n))
    (h2 : objGet kvs "parameters" = none)
    (h3 : lookupTool tools n = some info)
    (h4 : info.func [] = Except.ok r) :
    execute_tool tools (JVal.jobj kvs) = r ∧
    process_tool_calls tools [JVal.jobj kvs] conv res =
      (conv ++ [⟨"tool", "Tool \x27" ++ n ++ "\x27 result: " ++ r⟩],
       res ++ [⟨some (JVal.jstr n), none, r⟩]) := by
  have hex : execute_tool tools (JVal.jobj kvs) = r := by
    simp [execute_tool, jget, h1, h2, h3, h4]
  refine ⟨hex, ?_⟩
  rw [process_tool_calls_eq]
  simp [tool_messages, tool_entries, toolMessage, jget, h1, h2, hex,
    pyStrOfOpt, pyStrOfJVal]

/-- Witness for C10 at the concrete parameterless clock call. -/
theorem c10_witness :
    objGet [("tool", JVal.jstr "clock")] "parameters" = none ∧
    execute_tool c10_tools c10_call = "now" ∧
    process_tool_calls c10_tools [c10_call] [] [] =
      ([⟨"tool", "Tool \x27clock\x27 result: now"⟩],
       [⟨some (JVal.jstr "clock"), none, "now"⟩]) :=
  ⟨rfl,
   (c10_missing_parameters c10_tools [("tool", JVal.jstr "clock")] "clock" clock_tool
     "now" [] [] rfl rfl rfl rfl).1,
   (c10_missing_parameters c10_tools [("tool", JVal.jstr "clock")] "clock" clock_tool
     "now" [] [] rfl rfl rfl rfl).2⟩

end Live2DAgent
